import Mathlib

/-!
Shallow embedding of the Beltways RTIIS detection engine
(`backend/app/detection.py`, `backend/app/routers/incidents.py`,
`backend/app/routers/readings.py`, `backend/app/llm.py`) and proofs about it.

Modelling conventions:
* instants are integers (seconds); a Python `datetime` is a wall-clock value
  together with an optional UTC offset (`None` = naive);
* JSON payload numbers are rationals (Python floats idealized as exact
  arithmetic; in particular the literal `0.4` is the rational `2/5`);
* Python exceptions that escape a function are modelled with `Except String`;
* the relational store is a record of lists; the `autoincrement` primary key
  of an incident is modelled as the length of the incident table at insert
  time; SQL `order_by created_at desc ... first()` is modelled as picking the
  open incident with maximal `created_at` (first stored row on ties).
-/

namespace RTIIS

/-- A Python `datetime`: wall-clock seconds plus an optional UTC offset in
seconds; `off = none` models a naive timestamp. -/
structure PyDatetime where
  wall : ℤ
  off : Option ℤ
deriving Repr, DecidableEq

/-- The instant (seconds since epoch) denoted by an aware timestamp; for the
code paths embedded here it is only ever applied to aware values. -/
def instant (t : PyDatetime) : ℤ :=
  t.wall - t.off.getD 0

/-- Embeds `_timestamp_utc` (detection.py): a naive timestamp gets
`tzinfo=timezone.utc` attached unchanged; an aware one is converted with
`astimezone(timezone.utc)`. -/
def timestampUtc (t : PyDatetime) : PyDatetime :=
  match t.off with
  | none => { wall := t.wall, off := some 0 }
  | some o => { wall := t.wall - o, off := some 0 }

/-- Embeds the ingestion-time normalization of `readings.py` (lines 42-44):
a naive timestamp is replaced by the same wall clock tagged UTC; aware
timestamps are stored as given. -/
def ingestTimestamp (t : PyDatetime) : PyDatetime :=
  match t.off with
  | none => { wall := t.wall, off := some 0 }
  | some o => { wall := t.wall, off := some o }

/-- A JSON payload value as stored in `SensorReading.data`. -/
inductive PyValue where
  | num (q : ℚ)
  | str (s : String)
  | bool (b : Bool)
  | null
deriving Repr, DecidableEq

/-- A JSON object payload: association list with distinct keys. -/
abbrev Payload := List (String × PyValue)

/-- Python `data.get(key)`: `None` for a missing key; the stored value
otherwise (a stored JSON `null` also surfaces as Python `None`, which is the
`PyValue.null` of this model). -/
def pyGet (data : Payload) (key : String) : PyValue :=
  match List.lookup key data with
  | none => PyValue.null
  | some v => v

/-- Python `data.get(key, default)`: the default only fires when the key is
missing; a stored `null` is returned as-is. -/
def pyGetD (data : Payload) (key : String) (dflt : PyValue) : PyValue :=
  match List.lookup key data with
  | none => dflt
  | some v => v

/-- Value of a digit list read in base 10. -/
def digitsVal (cs : List Char) : Nat :=
  cs.foldl (fun n c => n * 10 + (c.toNat - 48)) 0

/-- Parse an unsigned decimal literal: digits with at most one dot and at
least one digit overall. -/
def parseUnsigned? (cs : List Char) : Option ℚ :=
  let intPart := cs.takeWhile (fun c => c ≠ '.')
  match cs.dropWhile (fun c => c ≠ '.') with
  | [] =>
    if intPart ≠ [] ∧ intPart.all Char.isDigit then
      some ((digitsVal intPart : ℚ))
    else none
  | _ :: frac =>
    if (intPart ≠ [] ∨ frac ≠ []) ∧ intPart.all Char.isDigit
        ∧ frac.all Char.isDigit then
      some ((digitsVal intPart : ℚ)
        + (digitsVal frac : ℚ) / ((10 : ℚ) ^ frac.length))
    else none

/-- Model of Python `float(...)` on a plain decimal string literal
(optional sign, digits, optional fractional part). Exotic accepted forms
(exponents, `inf`, `nan`, underscores, surrounding whitespace) are not
modelled; every string this development evaluates on is covered. -/
def parseDecimal? (s : String) : Option ℚ :=
  match s.data with
  | [] => none
  | c :: cs =>
    if c = '-' then (parseUnsigned? cs).map (fun q => -q)
    else if c = '+' then parseUnsigned? cs
    else parseUnsigned? (c :: cs)

/-- Python `float(value)` on a JSON value: numbers pass through, booleans are
coerced to 0/1, strings are parsed (ValueError when unparseable), and `None`
raises TypeError. -/
def pyFloat (v : PyValue) : Except String ℚ :=
  match v with
  | PyValue.num q => Except.ok q
  | PyValue.bool b => Except.ok (if b then 1 else 0)
  | PyValue.null => Except.error "TypeError"
  | PyValue.str s =>
    match parseDecimal? s with
    | some q => Except.ok q
    | none => Except.error "ValueError"

/-- A stored sensor reading (`SensorReading` of models.py); only the fields
the detection engine reads are modelled. -/
structure SensorReading where
  sensor_id : Nat
  timestamp : PyDatetime
  data : Payload
deriving Repr, DecidableEq

/-- Embeds `_extract_numeric_series`: walk the ordered readings, skip a
missing/`None` value at `key`, coerce with `float(...)` and skip (instead of
propagating) TypeError/ValueError. -/
def extractNumericSeries (readings : List SensorReading) (key : String) :
    List ℚ :=
  match readings with
  | [] => []
  | r :: rs =>
    match pyGet r.data key with
    | PyValue.null => extractNumericSeries rs key
    | v =>
      match pyFloat v with
      | Except.ok q => q :: extractNumericSeries rs key
      | Except.error _ => extractNumericSeries rs key

/-- The list comprehension inside `_window_average`: keep readings whose
UTC-normalized timestamp lies in `[cutoff, exclude_after]` and whose value at
`key` is present, applying a bare `float(...)` whose exception PROPAGATES
(the comprehension has no try/except). -/
def windowValues (key : String) (cutoff exclude_after : ℤ) :
    List SensorReading → Except String (List ℚ)
  | [] => Except.ok []
  | r :: rs =>
    if cutoff ≤ instant (timestampUtc r.timestamp)
        ∧ instant (timestampUtc r.timestamp) ≤ exclude_after
        ∧ pyGet r.data key ≠ PyValue.null then
      match pyFloat (pyGet r.data key) with
      | Except.error e => Except.error e
      | Except.ok q =>
        match windowValues key cutoff exclude_after rs with
        | Except.error e => Except.error e
        | Except.ok qs => Except.ok (q :: qs)
    else windowValues key cutoff exclude_after rs

/-- Arithmetic mean, as `statistics.mean` on an idealized exact list. -/
def mean (l : List ℚ) : ℚ :=
  l.sum / (l.length : ℚ)

/-- Embeds `_window_average`: average the values at `key` over
`[now - minutes, now - exclude_recent_seconds]`, `none` when no value
qualifies; an unhandled `float(...)` exception escapes. -/
def windowAverage (readings : List SensorReading) (key : String)
    (minutes exclude_recent_seconds : ℤ) (now : ℤ) :
    Except String (Option ℚ) :=
  let cutoff := now - minutes * 60
  let exclude_after := now - exclude_recent_seconds
  match windowValues key cutoff exclude_after readings with
  | Except.error e => Except.error e
  | Except.ok vals =>
    Except.ok (if vals.isEmpty then none else some (mean vals))

instance {ε α : Type} [DecidableEq ε] [DecidableEq α] :
    DecidableEq (Except ε α) := fun a b =>
  match a, b with
  | Except.error e1, Except.error e2 =>
    if h : e1 = e2 then isTrue (by rw [h])
    else isFalse (fun hc => h (Except.error.inj hc))
  | Except.ok v1, Except.ok v2 =>
    if h : v1 = v2 then isTrue (by rw [h])
    else isFalse (fun hc => h (Except.ok.inj hc))
  | Except.error e1, Except.ok v2 => isFalse (fun hc => Except.noConfusion hc)
  | Except.ok v1, Except.error e2 => isFalse (fun hc => Except.noConfusion hc)

/-- Sensor categories (`SensorType` of models.py). -/
inductive SensorType where
  | TRAFFIC_FLOW
  | SPEED
  | STOPPED_VEHICLE
deriving Repr, DecidableEq

/-- Incident lifecycle status (`IncidentStatus` of models.py). -/
inductive IncidentStatus where
  | OPEN
  | RESOLVED
deriving Repr, DecidableEq

/-- Incident severity scale (`IncidentSeverity` of models.py). -/
inductive IncidentSeverity where
  | LOW
  | MEDIUM
  | HIGH
deriving Repr, DecidableEq

/-- A sensor row; only the columns the detection join reads are modelled. -/
structure Sensor where
  id : Nat
  type : SensorType
  road_segment_id : Nat
deriving Repr, DecidableEq

/-- An incident row (`Incident` of models.py). -/
structure Incident where
  id : Nat
  road_segment_id : Nat
  status : IncidentStatus
  severity : IncidentSeverity
  type : String
  rule_triggered : String
  created_at : ℤ
  updated_at : ℤ
  ai_summary : Option String
  ai_cause : Option String
  ai_recommendation : Option String
  resolution_note : Option String
deriving Repr, DecidableEq

/-- The transactional store: road segments (by id), sensors, readings and
incidents. -/
structure Store where
  segments : List Nat
  sensors : List Sensor
  readings : List SensorReading
  incidents : List Incident
deriving Repr, DecidableEq

/-- The recent readings of one segment grouped by sensor category
(`SegmentReadings` of detection.py). -/
structure SegmentReadings where
  flow : List SensorReading
  speed : List SensorReading
  stopped : List SensorReading
deriving Repr, DecidableEq

/-- Stable insertion of a reading into a timestamp-ascending list; models the
store's `order_by(SensorReading.timestamp.asc())`. -/
def insertByTimestamp (r : SensorReading) :
    List SensorReading → List SensorReading
  | [] => [r]
  | x :: xs =>
    if instant r.timestamp < instant x.timestamp then r :: x :: xs
    else x :: insertByTimestamp r xs

/-- Sort readings ascending by timestamp (stable). -/
def sortByTimestamp : List SensorReading → List SensorReading
  | [] => []
  | r :: rs => insertByTimestamp r (sortByTimestamp rs)

/-- Embeds `collect_recent_readings`: for each category, the readings of the
segment's sensors of that category with `timestamp >= now - minutes`, sorted
ascending.  The store compares the stored (ingestion-normalized, aware)
timestamps as instants. -/
def collectRecentReadings (db : Store) (road_segment_id : Nat)
    (minutes : ℤ) (now : ℤ) : SegmentReadings :=
  let fetch := fun (sensor_type : SensorType) =>
    let since := now - minutes * 60
    sortByTimestamp (db.readings.filter (fun r =>
      match db.sensors.find? (fun s => s.id == r.sensor_id) with
      | some s =>
        s.road_segment_id == road_segment_id
          && (s.type == sensor_type)
          && decide (since ≤ instant r.timestamp)
      | none => false))
  { flow := fetch SensorType.TRAFFIC_FLOW
    speed := fetch SensorType.SPEED
    stopped := fetch SensorType.STOPPED_VEHICLE }

/-- The `CONGESTION_RULE` constant of detection.py. -/
def CONGESTION_RULE : String := "FLOW_DROP_AND_SPEED_DROP"

/-- The `STOPPED_VEHICLE_RULE` constant of detection.py. -/
def STOPPED_VEHICLE_RULE : String := "STOPPED_VEHICLE_DETECTED"

/-- Whether an incident row matches the upsert query
`road_segment_id == sid AND type == ty AND status == OPEN`. -/
def isOpenFor (sid : Nat) (ty : String) (inc : Incident) : Bool :=
  decide (inc.road_segment_id = sid ∧ inc.type = ty
    ∧ inc.status = IncidentStatus.OPEN)

/-- The upsert's lookup `... order_by(created_at desc).first()`: index and
row of the open incident for `(sid, ty)` with maximal `created_at`
(the earlier stored row on ties); `none` when no open incident exists. -/
def mostRecentOpen? (sid : Nat) (ty : String) :
    List Incident → Option (Nat × Incident)
  | [] => none
  | inc :: rest =>
    match mostRecentOpen? sid ty rest with
    | none => if isOpenFor sid ty inc then some (0, inc) else none
    | some (j, best) =>
      if isOpenFor sid ty inc then
        if inc.created_at < best.created_at then some (j + 1, best)
        else some (0, inc)
      else some (j + 1, best)

/-- Embeds `_upsert_incident`: touch the `updated_at` of an existing open
incident of the same `(segment, type)` and report no new incident, or insert
a fresh OPEN incident and return it. -/
def upsertIncident (db : Store) (road_segment_id : Nat)
    (incident_type : String) (severity : IncidentSeverity)
    (rule_name : String) (now : ℤ) : Store × Option Incident :=
  match mostRecentOpen? road_segment_id incident_type db.incidents with
  | some (j, existing) =>
    ({ db with incidents :=
        db.incidents.set j { existing with updated_at := now } }, none)
  | none =>
    let incident : Incident :=
      { id := db.incidents.length
        road_segment_id := road_segment_id
        status := IncidentStatus.OPEN
        severity := severity
        type := incident_type
        rule_triggered := rule_name
        created_at := now
        updated_at := now
        ai_summary := none
        ai_cause := none
        ai_recommendation := none
        resolution_note := none }
    ({ db with incidents := db.incidents ++ [incident] }, some incident)

/-- The guard chain of `_maybe_create_congestion_incident` up to (and
excluding) the upsert call: `ok true` exactly when the rule fires; an
exception escaping `_window_average` propagates. -/
def congestionFires (readings : SegmentReadings) (now : ℤ) :
    Except String Bool :=
  let flow_values := extractNumericSeries readings.flow "vehicles_per_minute"
  let speed_values := extractNumericSeries readings.speed "avg_speed_kmh"
  if flow_values.length < 2 ∨ speed_values.length < 2 then Except.ok false
  else
    match windowAverage readings.flow "vehicles_per_minute" 5 30 now with
    | Except.error e => Except.error e
    | Except.ok baseline_flow? =>
      match windowAverage readings.speed "avg_speed_kmh" 5 30 now with
      | Except.error e => Except.error e
      | Except.ok baseline_speed? =>
        match baseline_flow? with
        | none => Except.ok false
        | some baseline_flow =>
          match baseline_speed? with
          | none => Except.ok false
          | some baseline_speed =>
            if baseline_flow < 30 ∨ baseline_speed < 60 then Except.ok false
            else
              let last_flow := flow_values.drop (flow_values.length - 2)
              let last_speed := speed_values.drop (speed_values.length - 2)
              let flow_threshold := baseline_flow * (2 / 5)
              let speed_threshold : ℚ := 25
              let flow_sustained :=
                last_flow.all fun v => decide (v ≤ flow_threshold)
              let speed_sustained :=
                last_speed.all fun v => decide (v ≤ speed_threshold)
              Except.ok (flow_sustained && speed_sustained)

/-- Embeds `_maybe_create_congestion_incident`: upsert a HIGH `CONGESTION`
incident when the guard chain fires. -/
def maybeCreateCongestionIncident (db : Store) (road_segment_id : Nat)
    (readings : SegmentReadings) (now : ℤ) :
    Except String (Store × Option Incident) :=
  match congestionFires readings now with
  | Except.error e => Except.error e
  | Except.ok true =>
    Except.ok (upsertIncident db road_segment_id "CONGESTION"
      IncidentSeverity.HIGH CONGESTION_RULE now)
  | Except.ok false => Except.ok (db, none)

/-- Python `value >= 1` on a JSON value: numeric comparison for numbers,
booleans compare as 0/1, anything else raises TypeError. -/
def pyGe1 (v : PyValue) : Except String Bool :=
  match v with
  | PyValue.num q => Except.ok (decide (1 ≤ q))
  | PyValue.bool b => Except.ok b
  | PyValue.str _ => Except.error "TypeError"
  | PyValue.null => Except.error "TypeError"

/-- The `_is_blocked` closure: `data.get("stopped_count", 0) >= 1 and
data.get("lane_blocked") is True`, with Python short-circuiting. -/
def isBlocked (r : SensorReading) : Except String Bool :=
  match pyGe1 (pyGetD r.data "stopped_count" (PyValue.num 0)) with
  | Except.error e => Except.error e
  | Except.ok false => Except.ok false
  | Except.ok true =>
    Except.ok (pyGet r.data "lane_blocked" == PyValue.bool true)

/-- Python `all(_is_blocked(r) for r in ...)` with short-circuiting. -/
def allBlocked : List SensorReading → Except String Bool
  | [] => Except.ok true
  | r :: rs =>
    match isBlocked r with
    | Except.error e => Except.error e
    | Except.ok false => Except.ok false
    | Except.ok true => allBlocked rs

/-- The guard chain of `_maybe_create_stopped_vehicle_incident` up to the
upsert call. -/
def stoppedVehicleFires (readings : SegmentReadings) : Except String Bool :=
  if readings.stopped.length < 2 then Except.ok false
  else allBlocked (readings.stopped.drop (readings.stopped.length - 2))

/-- Embeds `_maybe_create_stopped_vehicle_incident`: upsert a MEDIUM
`STOPPED_VEHICLE` incident when the last two stopped readings both report a
blockage. -/
def maybeCreateStoppedVehicleIncident (db : Store) (road_segment_id : Nat)
    (readings : SegmentReadings) (now : ℤ) :
    Except String (Store × Option Incident) :=
  match stoppedVehicleFires readings with
  | Except.error e => Except.error e
  | Except.ok true =>
    Except.ok (upsertIncident db road_segment_id "STOPPED_VEHICLE"
      IncidentSeverity.MEDIUM STOPPED_VEHICLE_RULE now)
  | Except.ok false => Except.ok (db, none)

/-- Embeds `evaluate_incidents_for_segment`: unknown segment yields the empty
list; otherwise run the congestion rule, then the stopped-vehicle rule, and
return only the genuinely new incidents (congestion first). -/
def evaluateIncidentsForSegment (db : Store) (road_segment_id : Nat)
    (now : ℤ) : Except String (Store × List Incident) :=
  if road_segment_id ∈ db.segments then
    match maybeCreateCongestionIncident db road_segment_id
        (collectRecentReadings db road_segment_id 10 now) now with
    | Except.error e => Except.error e
    | Except.ok (db1, congestion_incident) =>
      match maybeCreateStoppedVehicleIncident db1 road_segment_id
          (collectRecentReadings db road_segment_id 10 now) now with
      | Except.error e => Except.error e
      | Except.ok (db2, stopped_incident) =>
        Except.ok (db2, congestion_incident.toList ++ stopped_incident.toList)
  else Except.ok (db, [])

/-- The row update of `resolve_incident` (routers/incidents.py) applied to
the incident table: set status RESOLVED, touch `updated_at`, store the note;
`none` when no row has the id. -/
def resolveInList (incident_id : Nat) (note : Option String) (now : ℤ) :
    List Incident → Option (List Incident)
  | [] => none
  | inc :: rest =>
    if inc.id = incident_id then
      some ({ inc with
        status := IncidentStatus.RESOLVED
        updated_at := now
        resolution_note := note } :: rest)
    else (resolveInList incident_id note now rest).map (fun l => inc :: l)

/-- Embeds the `resolve_incident` endpoint: 404 (no mutation) when the id is
unknown, otherwise mark the incident RESOLVED with the optional note. -/
def resolveIncident (db : Store) (incident_id : Nat) (note : Option String)
    (now : ℤ) : Except String Store :=
  match resolveInList incident_id note now db.incidents with
  | none => Except.error "404 Incident not found"
  | some l => Except.ok { db with incidents := l }

/-- Application settings (settings.py); only the fields `llm.py` reads. -/
structure Settings where
  openai_api_key : Option String
  llm_provider : String
deriving Repr, DecidableEq

/-- The narrative triple returned by the enrichment engine. -/
structure AIFields where
  ai_summary : String
  ai_cause : String
  ai_recommendation : String
deriving Repr, DecidableEq

/-- The possible outcomes of the external OpenAI HTTP exchange, as `llm.py`
distinguishes them: a parseable JSON reply, a 200 reply whose body
`json.loads` rejects, or a raised network/HTTP error. -/
inductive LLMCallOutcome where
  | success (summary cause recommendation : String)
  | unparseable (content : String)
  | httpFailure (message : String)
deriving Repr, DecidableEq

/-- Embeds `_dummy_response`: the deterministic local fallback narrative;
with no incident at hand the placeholder type "Incident" is used. -/
def dummy_response (incident : Option Incident) : AIFields :=
  let incident_type :=
    match incident with
    | some inc => inc.type
    | none => "Incident"
  { ai_summary :=
      incident_type
        ++ " detected; monitoring conditions while awaiting operator review."
    ai_cause := "Automatic detection based on sensor anomalies."
    ai_recommendation :=
      "Verify camera feeds, dispatch response crew, and update signage as needed." }

/-- Embeds `_call_openai`: a network/HTTP failure raises; an unparseable
body is answered locally with the no-incident fallback; a parsed body yields
its three fields. -/
def call_openai (outcome : LLMCallOutcome) : Except String AIFields :=
  match outcome with
  | LLMCallOutcome.httpFailure msg => Except.error msg
  | LLMCallOutcome.unparseable _ => Except.ok (dummy_response none)
  | LLMCallOutcome.success s c r =>
    Except.ok { ai_summary := s, ai_cause := c, ai_recommendation := r }

/-- Embeds `analyze_incident_with_llm`: missing/empty API key short-circuits
to the fallback; a raised provider error is caught and answered with the
fallback; any non-`openai` provider also falls back.  Total by construction:
no failure escapes to the caller. -/
def analyze_incident_with_llm (s : Settings) (incident : Incident)
    (outcome : LLMCallOutcome) : AIFields :=
  if s.openai_api_key = none ∨ s.openai_api_key = some "" then
    dummy_response (some incident)
  else if s.llm_provider.toLower = "openai" then
    match call_openai outcome with
    | Except.ok fields => fields
    | Except.error _ => dummy_response (some incident)
  else dummy_response (some incident)

/-- Embeds `_populate_ai_fields` (routers/readings.py): when the incident's
segment resolves, write the three narrative fields onto the incident; no
other column is touched. -/
def populate_ai_fields (segment_found : Bool) (s : Settings)
    (outcome : LLMCallOutcome) (incident : Incident) : Incident :=
  if segment_found then
    let fields := analyze_incident_with_llm s incident outcome
    { incident with
      ai_summary := some fields.ai_summary
      ai_cause := some fields.ai_cause
      ai_recommendation := some fields.ai_recommendation }
  else incident

/-- Number of OPEN incidents for a `(segment, type)` pair in a table. -/
def openCountL (l : List Incident) (sid : Nat) (ty : String) : Nat :=
  l.countP (isOpenFor sid ty)

/-- Invariant I1: at most one OPEN incident per `(segment, type)` pair. -/
def atMostOneOpen (db : Store) : Prop :=
  ∀ sid ty, openCountL db.incidents sid ty ≤ 1

/-- A store holding a single OPEN congestion incident for segment 1. -/
def dbInv : Store :=
  { segments := [1]
    sensors := []
    readings := []
    incidents := [
      { id := 0
        road_segment_id := 1
        status := IncidentStatus.OPEN
        severity := IncidentSeverity.HIGH
        type := "CONGESTION"
        rule_triggered := "FLOW_DROP_AND_SPEED_DROP"
        created_at := 0
        updated_at := 0
        ai_summary := none
        ai_cause := none
        ai_recommendation := none
        resolution_note := none }] }

/-- Store for the stopped-vehicle scenario of spec section 8: two blocked
readings 90s and 30s before `now = 600`. -/
def db4w : Store :=
  { segments := [1]
    sensors := [⟨3, SensorType.STOPPED_VEHICLE, 1⟩]
    readings := [
      ⟨3, ⟨510, some 0⟩, [("stopped_count", PyValue.num 1),
        ("lane_blocked", PyValue.bool true)]⟩,
      ⟨3, ⟨570, some 0⟩, [("stopped_count", PyValue.num 2),
        ("lane_blocked", PyValue.bool true)]⟩]
    incidents := [] }

/-- The incident the first evaluation of `db4w` creates. -/
def inc4w : Incident :=
  { id := 0
    road_segment_id := 1
    status := IncidentStatus.OPEN
    severity := IncidentSeverity.MEDIUM
    type := "STOPPED_VEHICLE"
    rule_triggered := "STOPPED_VEHICLE_DETECTED"
    created_at := 600
    updated_at := 600
    ai_summary := none
    ai_cause := none
    ai_recommendation := none
    resolution_note := none }

/-- The store after the first evaluation of `db4w`. -/
def db4w1 : Store := { db4w with incidents := [inc4w] }

/-- An empty store. -/
def dbEmpty : Store :=
  { segments := [], sensors := [], readings := [], incidents := [] }

/-- A store with one OPEN stopped-vehicle incident for segment 2. -/
def db10w : Store :=
  { segments := [2]
    sensors := []
    readings := []
    incidents := [
      { id := 4
        road_segment_id := 2
        status := IncidentStatus.OPEN
        severity := IncidentSeverity.MEDIUM
        type := "STOPPED_VEHICLE"
        rule_triggered := "STOPPED_VEHICLE_DETECTED"
        created_at := 100
        updated_at := 100
        ai_summary := none
        ai_cause := none
        ai_recommendation := none
        resolution_note := none }] }

/-- Flow readings of the spec section 8 congestion scenario
(baseline {60, 62, 58, 61}, then a sustained drop {15, 15}), `now = 600`. -/
def flowC2 : List SensorReading :=
  [⟨1, ⟨300, some 0⟩, [("vehicles_per_minute", PyValue.num 60)]⟩,
   ⟨1, ⟨360, some 0⟩, [("vehicles_per_minute", PyValue.num 62)]⟩,
   ⟨1, ⟨420, some 0⟩, [("vehicles_per_minute", PyValue.num 58)]⟩,
   ⟨1, ⟨480, some 0⟩, [("vehicles_per_minute", PyValue.num 61)]⟩,
   ⟨1, ⟨575, some 0⟩, [("vehicles_per_minute", PyValue.num 15)]⟩,
   ⟨1, ⟨590, some 0⟩, [("vehicles_per_minute", PyValue.num 15)]⟩]

/-- Speed readings of the same scenario (baseline {75, 70, 72, 74}, then a
sustained drop {20, 20}). -/
def speedC2 : List SensorReading :=
  [⟨2, ⟨300, some 0⟩, [("avg_speed_kmh", PyValue.num 75)]⟩,
   ⟨2, ⟨360, some 0⟩, [("avg_speed_kmh", PyValue.num 70)]⟩,
   ⟨2, ⟨420, some 0⟩, [("avg_speed_kmh", PyValue.num 72)]⟩,
   ⟨2, ⟨480, some 0⟩, [("avg_speed_kmh", PyValue.num 74)]⟩,
   ⟨2, ⟨575, some 0⟩, [("avg_speed_kmh", PyValue.num 20)]⟩,
   ⟨2, ⟨590, some 0⟩, [("avg_speed_kmh", PyValue.num 20)]⟩]

/-- The segment window of the congestion scenario. -/
def bundleC2 : SegmentReadings := ⟨flowC2, speedC2, []⟩

/-- Settings with no API key configured. -/
def settingsC9 : Settings := ⟨none, "openai"⟩

/-- Two incidents sharing the type CONGESTION but nothing else. -/
def incC9a : Incident :=
  ⟨11, 1, IncidentStatus.OPEN, IncidentSeverity.HIGH, "CONGESTION",
    "FLOW_DROP_AND_SPEED_DROP", 0, 0, none, none, none, none⟩

/-- Second incident of the C9 witness pair. -/
def incC9b : Incident :=
  ⟨12, 2, IncidentStatus.RESOLVED, IncidentSeverity.LOW, "CONGESTION",
    "FLOW_DROP_AND_SPEED_DROP", 9, 9, none, none, none, some "ok"⟩

/-- Speed readings holding one numeric value and one non-numeric string
inside the baseline window, `now = 600`. -/
def speedC5 : List SensorReading :=
  [⟨2, ⟨480, some 0⟩, [("avg_speed_kmh", PyValue.num 50)]⟩,
   ⟨2, ⟨520, some 0⟩, [("avg_speed_kmh", PyValue.str "oops")]⟩]

/-- Flow readings with two numeric samples and one malformed string value
inside the baseline window. -/
def flowC6 : List SensorReading :=
  [⟨1, ⟨480, some 0⟩, [("vehicles_per_minute", PyValue.num 50)]⟩,
   ⟨1, ⟨500, some 0⟩, [("vehicles_per_minute", PyValue.str "stalled")]⟩,
   ⟨1, ⟨520, some 0⟩, [("vehicles_per_minute", PyValue.num 45)]⟩]

/-- Store in which the flow window carries a malformed value while the
stopped-vehicle window satisfies its rule. -/
def dbC6 : Store :=
  { segments := [1]
    sensors := [⟨1, SensorType.TRAFFIC_FLOW, 1⟩, ⟨2, SensorType.SPEED, 1⟩,
      ⟨3, SensorType.STOPPED_VEHICLE, 1⟩]
    readings := flowC6 ++ speedC2 ++ db4w.readings
    incidents := [] }

theorem openCountL_pos_iff (l : List Incident) (sid : Nat) (ty : String) :
    0 < openCountL l sid ty ↔ ∃ inc ∈ l, isOpenFor sid ty inc = true := by
  unfold openCountL
  rw [List.countP_pos_iff]

theorem openCountL_eq_zero_iff (l : List Incident) (sid : Nat) (ty : String) :
    openCountL l sid ty = 0 ↔ ∀ inc ∈ l, isOpenFor sid ty inc = false := by
  unfold openCountL
  rw [List.countP_eq_zero]
  simp only [Bool.not_eq_true]

theorem openCountL_append (l1 l2 : List Incident) (sid : Nat) (ty : String) :
    openCountL (l1 ++ l2) sid ty = openCountL l1 sid ty + openCountL l2 sid ty := by
  unfold openCountL
  rw [List.countP_append]

theorem openCountL_set_of_eq (s : Nat) (t : String) :
    ∀ (l : List Incident) (j : Nat) (a : Incident),
      (∀ hj : j < l.length, isOpenFor s t a = isOpenFor s t (l.get ⟨j, hj⟩)) →
      openCountL (l.set j a) s t = openCountL l s t := by
  intro l
  induction l with
  | nil => intro j a h; rfl
  | cons x xs ih =>
    intro j a h
    cases j with
    | zero =>
      have hx : isOpenFor s t a = isOpenFor s t x := h (by simp)
      simp [openCountL, List.countP_cons, hx]
    | succ j =>
      have htail :=
        ih j a (fun hj => by simpa using h (Nat.succ_lt_succ hj))
      simp only [List.set, openCountL, List.countP_cons] at htail ⊢
      omega

theorem mostRecentOpen?_some (sid : Nat) (ty : String) :
    ∀ (l : List Incident) (j : Nat) (inc : Incident),
      mostRecentOpen? sid ty l = some (j, inc) →
      ∃ hj : j < l.length, l.get ⟨j, hj⟩ = inc ∧ isOpenFor sid ty inc = true := by
  intro l
  induction l with
  | nil => intro j inc h; simp [mostRecentOpen?] at h
  | cons x xs ih =>
    intro j inc h
    rw [mostRecentOpen?] at h
    cases hrec : mostRecentOpen? sid ty xs with
    | none =>
      rw [hrec] at h
      by_cases hx : isOpenFor sid ty x = true
      · simp only [hx, if_true] at h
        obtain ⟨rfl, rfl⟩ : 0 = j ∧ x = inc := by simpa using h
        exact ⟨by simp, rfl, hx⟩
      · simp [hx] at h
    | some p =>
      obtain ⟨j2, best⟩ := p
      rw [hrec] at h
      obtain ⟨hj2, hget, hopen⟩ := ih j2 best hrec
      by_cases hx : isOpenFor sid ty x = true
      · simp only [hx, if_true] at h
        by_cases hcr : x.created_at < best.created_at
        · simp only [hcr, if_true] at h
          obtain ⟨rfl, rfl⟩ : j2 + 1 = j ∧ best = inc := by simpa using h
          exact ⟨Nat.succ_lt_succ hj2, by simpa using hget, hopen⟩
        · simp only [hcr, if_false] at h
          obtain ⟨rfl, rfl⟩ : 0 = j ∧ x = inc := by simpa using h
          exact ⟨by simp, rfl, hx⟩
      · simp only [hx, if_false] at h
        obtain ⟨rfl, rfl⟩ : j2 + 1 = j ∧ best = inc := by simpa using h
        exact ⟨Nat.succ_lt_succ hj2, by simpa using hget, hopen⟩

theorem mostRecentOpen?_none_iff (sid : Nat) (ty : String) :
    ∀ l : List Incident, mostRecentOpen? sid ty l = none ↔
      ∀ inc ∈ l, isOpenFor sid ty inc = false := by
  intro l
  induction l with
  | nil => simp [mostRecentOpen?]
  | cons x xs ih =>
    rw [mostRecentOpen?]
    cases hrec : mostRecentOpen? sid ty xs with
    | none =>
      have hxs : ∀ inc ∈ xs, isOpenFor sid ty inc = false := ih.mp hrec
      constructor
      · intro h inc hmem
        by_cases hx : isOpenFor sid ty x = true
        · simp [hx] at h
        · rcases List.mem_cons.mp hmem with rfl | hmem2
          · exact Bool.not_eq_true _ ▸ hx
          · exact hxs inc hmem2
      · intro hall
        have hx : isOpenFor sid ty x = false := hall x (List.mem_cons_self x xs)
        simp [hx]
    | some p =>
      obtain ⟨j, best⟩ := p
      obtain ⟨hj, hget, hopen⟩ := mostRecentOpen?_some sid ty xs j best hrec
      have hbestmem : best ∈ xs := hget ▸ List.get_mem xs j hj
      constructor
      · intro h
        exfalso
        by_cases hx : isOpenFor sid ty x = true
        · by_cases hcr : x.created_at < best.created_at <;> simp [hx, hcr] at h
        · simp [hx] at h
      · intro hall
        exact absurd hopen
          (by simp [hall best (List.mem_cons_of_mem x hbestmem)])

theorem mostRecentOpen?_none_iff_count (sid : Nat) (ty : String)
    (l : List Incident) :
    mostRecentOpen? sid ty l = none ↔ openCountL l sid ty = 0 := by
  rw [mostRecentOpen?_none_iff, openCountL_eq_zero_iff]

theorem upsert_frame (db : Store) (sid : Nat) (ty : String)
    (sev : IncidentSeverity) (rule : String) (now : ℤ) :
    (upsertIncident db sid ty sev rule now).1.segments = db.segments ∧
    (upsertIncident db sid ty sev rule now).1.sensors = db.sensors ∧
    (upsertIncident db sid ty sev rule now).1.readings = db.readings := by
  unfold upsertIncident
  cases h : mostRecentOpen? sid ty db.incidents with
  | none => exact ⟨rfl, rfl, rfl⟩
  | some p => obtain ⟨j, ex⟩ := p; exact ⟨rfl, rfl, rfl⟩

theorem upsert_touch_counts (db : Store) (sid : Nat) (ty : String)
    (sev : IncidentSeverity) (rule : String) (now : ℤ) (j : Nat)
    (ex : Incident) (h : mostRecentOpen? sid ty db.incidents = some (j, ex)) :
    (upsertIncident db sid ty sev rule now).2 = none ∧
    ∀ s t, openCountL (upsertIncident db sid ty sev rule now).1.incidents s t =
      openCountL db.incidents s t := by
  obtain ⟨hj, hget, hopen⟩ := mostRecentOpen?_some sid ty db.incidents j ex h
  refine ⟨by simp [upsertIncident, h], ?_⟩
  intro s t
  simp only [upsertIncident, h]
  apply openCountL_set_of_eq
  intro hj2
  have hfin : (⟨j, hj2⟩ : Fin db.incidents.length) = ⟨j, hj⟩ := Fin.ext rfl
  rw [hfin, hget]
  rfl

theorem upsert_new (db : Store) (sid : Nat) (ty : String)
    (sev : IncidentSeverity) (rule : String) (now : ℤ)
    (h : mostRecentOpen? sid ty db.incidents = none) :
    ∃ inc, upsertIncident db sid ty sev rule now =
        ({ db with incidents := db.incidents ++ [inc] }, some inc) ∧
      inc.road_segment_id = sid ∧ inc.status = IncidentStatus.OPEN ∧
      inc.severity = sev ∧ inc.type = ty ∧ inc.rule_triggered = rule ∧
      inc.created_at = now ∧ inc.updated_at = now := by
  simp only [upsertIncident, h]
  exact ⟨_, rfl, rfl, rfl, rfl, rfl, rfl, rfl, rfl⟩

theorem upsert_counts_new (db : Store) (sid : Nat) (ty : String)
    (sev : IncidentSeverity) (rule : String) (now : ℤ)
    (h : mostRecentOpen? sid ty db.incidents = none) (s : Nat) (t : String) :
    openCountL (upsertIncident db sid ty sev rule now).1.incidents s t =
      openCountL db.incidents s t + (if s = sid ∧ t = ty then 1 else 0) := by
  obtain ⟨inc, heq, hsid, hst, hsev, hty, -, -⟩ :=
    upsert_new db sid ty sev rule now h
  rw [heq]
  show openCountL (db.incidents ++ [inc]) s t = _
  rw [openCountL_append]
  congr 1
  by_cases hs : s = sid
  · by_cases ht : t = ty
    · simp [openCountL, List.countP_cons, isOpenFor, hsid, hst, hty, hs, ht]
    · simp [openCountL, List.countP_cons, isOpenFor, hsid, hst, hty, hs,
        ht, Ne.symm ht]
  · simp [openCountL, List.countP_cons, isOpenFor, hsid, hst, hty, hs,
      Ne.symm hs]

theorem upsert_counts_mono (db : Store) (sid : Nat) (ty : String)
    (sev : IncidentSeverity) (rule : String) (now : ℤ) (s : Nat)
    (t : String) :
    openCountL db.incidents s t ≤
      openCountL (upsertIncident db sid ty sev rule now).1.incidents s t := by
  cases h : mostRecentOpen? sid ty db.incidents with
  | some p =>
    obtain ⟨j, ex⟩ := p
    rw [(upsert_touch_counts db sid ty sev rule now j ex h).2 s t]
  | none =>
    rw [upsert_counts_new db sid ty sev rule now h s t]
    omega

theorem upsert_pos_self (db : Store) (sid : Nat) (ty : String)
    (sev : IncidentSeverity) (rule : String) (now : ℤ) :
    0 < openCountL (upsertIncident db sid ty sev rule now).1.incidents sid ty := by
  cases h : mostRecentOpen? sid ty db.incidents with
  | some p =>
    obtain ⟨j, ex⟩ := p
    rw [(upsert_touch_counts db sid ty sev rule now j ex h).2 sid ty]
    obtain ⟨hj, hget, hopen⟩ := mostRecentOpen?_some sid ty db.incidents j ex h
    exact (openCountL_pos_iff db.incidents sid ty).mpr
      ⟨ex, hget ▸ List.get_mem db.incidents j hj, hopen⟩
  | none =>
    rw [upsert_counts_new db sid ty sev rule now h sid ty]
    simp

theorem upsert_atMostOne (db : Store) (h : atMostOneOpen db) (sid : Nat)
    (ty : String) (sev : IncidentSeverity) (rule : String) (now : ℤ) :
    atMostOneOpen (upsertIncident db sid ty sev rule now).1 := by
  intro s t
  cases hm : mostRecentOpen? sid ty db.incidents with
  | some p =>
    obtain ⟨j, ex⟩ := p
    rw [(upsert_touch_counts db sid ty sev rule now j ex hm).2 s t]
    exact h s t
  | none =>
    rw [upsert_counts_new db sid ty sev rule now hm s t]
    by_cases hs : s = sid ∧ t = ty
    · obtain ⟨rfl, rfl⟩ := hs
      have h0 : openCountL db.incidents s t = 0 :=
        (mostRecentOpen?_none_iff_count s t db.incidents).mp hm
      simp [h0]
    · simpa [hs] using h s t

theorem upsert_some_fields (db : Store) (sid : Nat) (ty : String)
    (sev : IncidentSeverity) (rule : String) (now : ℤ) (inc : Incident)
    (h : (upsertIncident db sid ty sev rule now).2 = some inc) :
    inc.severity = sev ∧ inc.type = ty ∧ inc.rule_triggered = rule ∧
    inc.status = IncidentStatus.OPEN ∧ inc.road_segment_id = sid := by
  cases hm : mostRecentOpen? sid ty db.incidents with
  | some p =>
    obtain ⟨j, ex⟩ := p
    rw [(upsert_touch_counts db sid ty sev rule now j ex hm).1] at h
    exact absurd h (by simp)
  | none =>
    obtain ⟨inc2, heq, hsid, hstat, hsev, hty, hrule, -, -⟩ :=
      upsert_new db sid ty sev rule now hm
    rw [heq] at h
    obtain rfl : inc2 = inc := Option.some.inj h
    exact ⟨hsev, hty, hrule, hstat, hsid⟩

theorem maybeCong_cases (db : Store) (sid : Nat) (readings : SegmentReadings)
    (now : ℤ) (db2 : Store) (o : Option Incident)
    (h : maybeCreateCongestionIncident db sid readings now =
      Except.ok (db2, o)) :
    (congestionFires readings now = Except.ok true ∧
      upsertIncident db sid "CONGESTION" IncidentSeverity.HIGH
        CONGESTION_RULE now = (db2, o)) ∨
    (congestionFires readings now = Except.ok false ∧ db2 = db ∧ o = none) := by
  unfold maybeCreateCongestionIncident at h
  cases hf : congestionFires readings now with
  | error e => rw [hf] at h; exact absurd h (by simp)
  | ok b =>
    rw [hf] at h
    cases b
    · simp only [Except.ok.injEq, Prod.mk.injEq] at h
      exact Or.inr ⟨rfl, h.1.symm, h.2.symm⟩
    · exact Or.inl ⟨rfl, Except.ok.inj h⟩

theorem maybeStopped_cases (db : Store) (sid : Nat)
    (readings : SegmentReadings) (now : ℤ) (db2 : Store) (o : Option Incident)
    (h : maybeCreateStoppedVehicleIncident db sid readings now =
      Except.ok (db2, o)) :
    (stoppedVehicleFires readings = Except.ok true ∧
      upsertIncident db sid "STOPPED_VEHICLE" IncidentSeverity.MEDIUM
        STOPPED_VEHICLE_RULE now = (db2, o)) ∨
    (stoppedVehicleFires readings = Except.ok false ∧ db2 = db ∧ o = none) := by
  unfold maybeCreateStoppedVehicleIncident at h
  cases hf : stoppedVehicleFires readings with
  | error e => rw [hf] at h; exact absurd h (by simp)
  | ok b =>
    rw [hf] at h
    cases b
    · simp only [Except.ok.injEq, Prod.mk.injEq] at h
      exact Or.inr ⟨rfl, h.1.symm, h.2.symm⟩
    · exact Or.inl ⟨rfl, Except.ok.inj h⟩

theorem maybeCong_of_true (db : Store) (sid : Nat)
    (readings : SegmentReadings) (now : ℤ)
    (h : congestionFires readings now = Except.ok true) :
    maybeCreateCongestionIncident db sid readings now =
      Except.ok (upsertIncident db sid "CONGESTION" IncidentSeverity.HIGH
        CONGESTION_RULE now) := by
  unfold maybeCreateCongestionIncident
  rw [h]

theorem maybeCong_of_false (db : Store) (sid : Nat)
    (readings : SegmentReadings) (now : ℤ)
    (h : congestionFires readings now = Except.ok false) :
    maybeCreateCongestionIncident db sid readings now =
      Except.ok (db, none) := by
  unfold maybeCreateCongestionIncident
  rw [h]

theorem maybeStopped_of_true (db : Store) (sid : Nat)
    (readings : SegmentReadings) (now : ℤ)
    (h : stoppedVehicleFires readings = Except.ok true) :
    maybeCreateStoppedVehicleIncident db sid readings now =
      Except.ok (upsertIncident db sid "STOPPED_VEHICLE"
        IncidentSeverity.MEDIUM STOPPED_VEHICLE_RULE now) := by
  unfold maybeCreateStoppedVehicleIncident
  rw [h]

theorem maybeStopped_of_false (db : Store) (sid : Nat)
    (readings : SegmentReadings) (now : ℤ)
    (h : stoppedVehicleFires readings = Except.ok false) :
    maybeCreateStoppedVehicleIncident db sid readings now =
      Except.ok (db, none) := by
  unfold maybeCreateStoppedVehicleIncident
  rw [h]

theorem maybeStep_props (db db2 : Store) (o : Option Incident) (sid : Nat)
    (ty : String) (sev : IncidentSeverity) (rule : String) (now : ℤ)
    (hcase : upsertIncident db sid ty sev rule now = (db2, o) ∨
      (db2 = db ∧ o = none)) :
    (db2.segments = db.segments ∧ db2.sensors = db.sensors ∧
      db2.readings = db.readings) ∧
    (∀ s t, openCountL db.incidents s t ≤ openCountL db2.incidents s t) ∧
    (atMostOneOpen db → atMostOneOpen db2) := by
  rcases hcase with hup | ⟨rfl, -⟩
  · refine ⟨?_, ?_, ?_⟩
    · have := upsert_frame db sid ty sev rule now
      rw [hup] at this
      exact this
    · intro s t
      have := upsert_counts_mono db sid ty sev rule now s t
      rw [hup] at this
      exact this
    · intro h
      have := upsert_atMostOne db h sid ty sev rule now
      rw [hup] at this
      exact this
  · exact ⟨⟨rfl, rfl, rfl⟩, fun s t => le_refl _, fun h => h⟩

theorem collect_congr (db db2 : Store) (h1 : db2.sensors = db.sensors)
    (h2 : db2.readings = db.readings) (sid : Nat) (m now : ℤ) :
    collectRecentReadings db2 sid m now = collectRecentReadings db sid m now := by
  unfold collectRecentReadings
  rw [h1, h2]

theorem evaluate_eq_not_mem (db : Store) (sid : Nat) (now : ℤ)
    (hmem : sid ∉ db.segments) :
    evaluateIncidentsForSegment db sid now = Except.ok (db, []) := by
  unfold evaluateIncidentsForSegment
  rw [if_neg hmem]

theorem evaluate_eq_cong_error (db : Store) (sid : Nat) (now : ℤ) (e : String)
    (hmem : sid ∈ db.segments)
    (hc : maybeCreateCongestionIncident db sid
      (collectRecentReadings db sid 10 now) now = Except.error e) :
    evaluateIncidentsForSegment db sid now = Except.error e := by
  unfold evaluateIncidentsForSegment
  rw [if_pos hmem, hc]

theorem evaluate_eq_stopped_error (db db1 : Store) (sid : Nat) (now : ℤ)
    (c : Option Incident) (e : String) (hmem : sid ∈ db.segments)
    (hc : maybeCreateCongestionIncident db sid
      (collectRecentReadings db sid 10 now) now = Except.ok (db1, c))
    (hs : maybeCreateStoppedVehicleIncident db1 sid
      (collectRecentReadings db sid 10 now) now = Except.error e) :
    evaluateIncidentsForSegment db sid now = Except.error e := by
  unfold evaluateIncidentsForSegment
  rw [if_pos hmem, hc]
  show (match maybeCreateStoppedVehicleIncident db1 sid
        (collectRecentReadings db sid 10 now) now with
      | Except.error e => Except.error e
      | Except.ok (db4, stopped_incident) =>
        Except.ok (db4, c.toList ++ stopped_incident.toList)) =
    Except.error e
  rw [hs]

theorem evaluate_eq_of (db db1 db2 : Store) (sid : Nat) (now : ℤ)
    (c s : Option Incident) (hmem : sid ∈ db.segments)
    (hc : maybeCreateCongestionIncident db sid
      (collectRecentReadings db sid 10 now) now = Except.ok (db1, c))
    (hs : maybeCreateStoppedVehicleIncident db1 sid
      (collectRecentReadings db sid 10 now) now = Except.ok (db2, s)) :
    evaluateIncidentsForSegment db sid now =
      Except.ok (db2, c.toList ++ s.toList) := by
  unfold evaluateIncidentsForSegment
  rw [if_pos hmem, hc]
  show (match maybeCreateStoppedVehicleIncident db1 sid
        (collectRecentReadings db sid 10 now) now with
      | Except.error e => Except.error e
      | Except.ok (db4, stopped_incident) =>
        Except.ok (db4, c.toList ++ stopped_incident.toList)) =
    Except.ok (db2, c.toList ++ s.toList)
  rw [hs]

theorem evaluate_cases (db : Store) (sid : Nat) (now : ℤ) (db2 : Store)
    (l : List Incident)
    (h : evaluateIncidentsForSegment db sid now = Except.ok (db2, l)) :
    (sid ∉ db.segments ∧ db2 = db ∧ l = []) ∨
    (sid ∈ db.segments ∧ ∃ db1 c s,
      maybeCreateCongestionIncident db sid
        (collectRecentReadings db sid 10 now) now = Except.ok (db1, c) ∧
      maybeCreateStoppedVehicleIncident db1 sid
        (collectRecentReadings db sid 10 now) now = Except.ok (db2, s) ∧
      l = c.toList ++ s.toList) := by
  by_cases hmem : sid ∈ db.segments
  · right
    refine ⟨hmem, ?_⟩
    cases hc : maybeCreateCongestionIncident db sid
        (collectRecentReadings db sid 10 now) now with
    | error e =>
      rw [evaluate_eq_cong_error db sid now e hmem hc] at h
      exact absurd h (by simp)
    | ok p =>
      obtain ⟨db1, c⟩ := p
      cases hs : maybeCreateStoppedVehicleIncident db1 sid
          (collectRecentReadings db sid 10 now) now with
      | error e =>
        rw [evaluate_eq_stopped_error db db1 sid now c e hmem hc hs] at h
        exact absurd h (by simp)
      | ok p2 =>
        obtain ⟨db3, s⟩ := p2
        rw [evaluate_eq_of db db1 db3 sid now c s hmem hc hs] at h
        simp only [Except.ok.injEq, Prod.mk.injEq] at h
        obtain ⟨hdb, hl⟩ := h
        subst hdb
        exact ⟨db1, c, s, rfl, hs, hl.symm⟩
  · left
    rw [evaluate_eq_not_mem db sid now hmem] at h
    simp only [Except.ok.injEq, Prod.mk.injEq] at h
    exact ⟨hmem, h.1.symm, h.2.symm⟩

theorem resolveInList_counts (iid : Nat) (note : Option String) (now : ℤ) :
    ∀ l l2 : List Incident, resolveInList iid note now l = some l2 →
      ∀ s t, openCountL l2 s t ≤ openCountL l s t := by
  intro l
  induction l with
  | nil => intro l2 h; simp [resolveInList] at h
  | cons inc rest ih =>
    intro l2 h s t
    rw [resolveInList] at h
    by_cases hid : inc.id = iid
    · rw [if_pos hid] at h
      obtain rfl := Option.some.inj h
      have hres : isOpenFor s t { inc with
          status := IncidentStatus.RESOLVED, updated_at := now,
          resolution_note := note } = false := by
        simp [isOpenFor]
      simp [openCountL, List.countP_cons, hres]
    · rw [if_neg hid] at h
      cases hrec : resolveInList iid note now rest with
      | none => rw [hrec] at h; simp at h
      | some rest2 =>
        rw [hrec] at h
        simp only [Option.map_some'] at h
        obtain rfl := Option.some.inj h
        have := ih rest2 hrec s t
        simp only [openCountL, List.countP_cons]
        simp only [openCountL] at this
        omega

/-- Claim C1: starting from a store in which every `(segment, type)` pair has
at most one OPEN incident, the lifecycle upsert, the orchestrator's evaluate
and the external resolve operation all yield a store that again has at most
one OPEN incident per pair, and resolve never increases any OPEN count. -/
theorem open_incident_invariant_preserved (db : Store)
    (h : atMostOneOpen db) :
    (∀ sid ty sev rule now,
      atMostOneOpen (upsertIncident db sid ty sev rule now).1) ∧
    (∀ sid now db2 incs,
      evaluateIncidentsForSegment db sid now = Except.ok (db2, incs) →
      atMostOneOpen db2) ∧
    (∀ iid note now db2, resolveIncident db iid note now = Except.ok db2 →
      atMostOneOpen db2 ∧
      ∀ s t, openCountL db2.incidents s t ≤ openCountL db.incidents s t) := by
  refine ⟨?_, ?_, ?_⟩
  · intro sid ty sev rule now
    exact upsert_atMostOne db h sid ty sev rule now
  · intro sid now db2 incs he
    rcases evaluate_cases db sid now db2 incs he with
      ⟨-, rfl, -⟩ | ⟨-, db1, c, s, hc, hs, -⟩
    · exact h
    · have h1 : atMostOneOpen db1 := by
        rcases maybeCong_cases db sid _ now db1 c hc with ⟨-, hup⟩ | ⟨-, rfl, -⟩
        · exact (maybeStep_props db db1 c sid _ _ _ now (Or.inl hup)).2.2 h
        · exact h
      rcases maybeStopped_cases db1 sid _ now db2 s hs with
        ⟨-, hup⟩ | ⟨-, rfl, -⟩
      · exact (maybeStep_props db1 db2 s sid _ _ _ now (Or.inl hup)).2.2 h1
      · exact h1
  · intro iid note now db2 hr
    unfold resolveIncident at hr
    cases hres : resolveInList iid note now db.incidents with
    | none => rw [hres] at hr; exact absurd hr (by simp)
    | some lst =>
      rw [hres] at hr
      obtain rfl : { db with incidents := lst } = db2 := Except.ok.inj hr
      have hmono := resolveInList_counts iid note now db.incidents lst hres
      exact ⟨fun s t => le_trans (hmono s t) (h s t), hmono⟩

theorem open_incident_invariant_witness :
    atMostOneOpen dbInv ∧
    atMostOneOpen (upsertIncident dbInv 1 "CONGESTION" IncidentSeverity.HIGH
      CONGESTION_RULE 5).1 :=
  have hinv : atMostOneOpen dbInv := by
    intro sid ty
    show List.countP (isOpenFor sid ty) dbInv.incidents ≤ 1
    simp [dbInv, List.countP_cons]
    split <;> omega
  ⟨hinv, (open_incident_invariant_preserved dbInv hinv).1 1 "CONGESTION"
    IncidentSeverity.HIGH CONGESTION_RULE 5⟩

theorem upsert_absorbs (db1 : Store) (sid : Nat) (ty : String)
    (sev : IncidentSeverity) (rule : String) (now : ℤ)
    (hpos : 0 < openCountL db1.incidents sid ty) :
    (upsertIncident db1 sid ty sev rule now).2 = none ∧
    ∀ s t, openCountL (upsertIncident db1 sid ty sev rule now).1.incidents s t =
      openCountL db1.incidents s t := by
  cases hm : mostRecentOpen? sid ty db1.incidents with
  | none =>
    rw [mostRecentOpen?_none_iff_count] at hm
    omega
  | some p =>
    obtain ⟨j, ex⟩ := p
    exact upsert_touch_counts db1 sid ty sev rule now j ex hm

theorem maybeCong_second (dbx : Store) (sid : Nat) (R : SegmentReadings)
    (now : ℤ) (b : Bool) (hfire : congestionFires R now = Except.ok b)
    (hpos : b = true → 0 < openCountL dbx.incidents sid "CONGESTION") :
    ∃ dby, maybeCreateCongestionIncident dbx sid R now =
        Except.ok (dby, none) ∧
      (∀ s t, openCountL dby.incidents s t = openCountL dbx.incidents s t) ∧
      dby.segments = dbx.segments ∧ dby.sensors = dbx.sensors ∧
      dby.readings = dbx.readings := by
  cases b
  · exact ⟨dbx, maybeCong_of_false dbx sid R now hfire,
      fun s t => rfl, rfl, rfl, rfl⟩
  · have habs := upsert_absorbs dbx sid "CONGESTION" IncidentSeverity.HIGH
      CONGESTION_RULE now (hpos rfl)
    have hframe := upsert_frame dbx sid "CONGESTION" IncidentSeverity.HIGH
      CONGESTION_RULE now
    refine ⟨(upsertIncident dbx sid "CONGESTION" IncidentSeverity.HIGH
      CONGESTION_RULE now).1, ?_, habs.2, hframe.1, hframe.2.1, hframe.2.2⟩
    rw [maybeCong_of_true dbx sid R now hfire, ← habs.1]

theorem maybeStopped_second (dbx : Store) (sid : Nat) (R : SegmentReadings)
    (now : ℤ) (b : Bool) (hfire : stoppedVehicleFires R = Except.ok b)
    (hpos : b = true → 0 < openCountL dbx.incidents sid "STOPPED_VEHICLE") :
    ∃ dby, maybeCreateStoppedVehicleIncident dbx sid R now =
        Except.ok (dby, none) ∧
      (∀ s t, openCountL dby.incidents s t = openCountL dbx.incidents s t) ∧
      dby.segments = dbx.segments ∧ dby.sensors = dbx.sensors ∧
      dby.readings = dbx.readings := by
  cases b
  · exact ⟨dbx, maybeStopped_of_false dbx sid R now hfire,
      fun s t => rfl, rfl, rfl, rfl⟩
  · have habs := upsert_absorbs dbx sid "STOPPED_VEHICLE"
      IncidentSeverity.MEDIUM STOPPED_VEHICLE_RULE now (hpos rfl)
    have hframe := upsert_frame dbx sid "STOPPED_VEHICLE"
      IncidentSeverity.MEDIUM STOPPED_VEHICLE_RULE now
    refine ⟨(upsertIncident dbx sid "STOPPED_VEHICLE" IncidentSeverity.MEDIUM
      STOPPED_VEHICLE_RULE now).1, ?_, habs.2, hframe.1, hframe.2.1,
      hframe.2.2⟩
    rw [maybeStopped_of_true dbx sid R now hfire, ← habs.1]

/-- Claim C4: evaluating the same segment twice on an unchanged reading
history yields a non-empty result only on the first call; the second call
returns the empty list and leaves every OPEN incident count unchanged. -/
theorem evaluate_idempotent (db : Store) (sid : Nat) (now : ℤ)
    (db1 db2 : Store) (l1 l2 : List Incident)
    (h1 : evaluateIncidentsForSegment db sid now = Except.ok (db1, l1))
    (h2 : evaluateIncidentsForSegment db1 sid now = Except.ok (db2, l2)) :
    l2 = [] ∧
    ∀ s t, openCountL db2.incidents s t = openCountL db1.incidents s t := by
  rcases evaluate_cases db sid now db1 l1 h1 with
    ⟨hmem, rfl, -⟩ | ⟨hmem, dbA, c, s, hc, hs, -⟩
  · rw [evaluate_eq_not_mem db1 sid now hmem] at h2
    simp only [Except.ok.injEq, Prod.mk.injEq] at h2
    obtain ⟨hdb, hl⟩ := h2
    exact ⟨hl.symm, fun s2 t2 => by rw [← hdb]⟩
  · set R := collectRecentReadings db sid 10 now with hR
    have hcaseA : upsertIncident db sid "CONGESTION" IncidentSeverity.HIGH
        CONGESTION_RULE now = (dbA, c) ∨ (dbA = db ∧ c = none) := by
      rcases maybeCong_cases db sid R now dbA c hc with ⟨-, hup⟩ | ⟨-, he, ho⟩
      · exact Or.inl hup
      · exact Or.inr ⟨he, ho⟩
    have hcaseB : upsertIncident dbA sid "STOPPED_VEHICLE"
        IncidentSeverity.MEDIUM STOPPED_VEHICLE_RULE now = (db1, s) ∨
        (db1 = dbA ∧ s = none) := by
      rcases maybeStopped_cases dbA sid R now db1 s hs with
        ⟨-, hup⟩ | ⟨-, he, ho⟩
      · exact Or.inl hup
      · exact Or.inr ⟨he, ho⟩
    obtain ⟨⟨hseg1, hsen1, hread1⟩, hmono1, -⟩ :=
      maybeStep_props db dbA c sid "CONGESTION" IncidentSeverity.HIGH
        CONGESTION_RULE now hcaseA
    obtain ⟨⟨hseg2, hsen2, hread2⟩, hmono2, -⟩ :=
      maybeStep_props dbA db1 s sid "STOPPED_VEHICLE"
        IncidentSeverity.MEDIUM STOPPED_VEHICLE_RULE now hcaseB
    have hmem1 : sid ∈ db1.segments := by
      rw [hseg2, hseg1]
      exact hmem
    have hcollect : collectRecentReadings db1 sid 10 now = R := by
      rw [hR]
      exact collect_congr db db1 (hsen2.trans hsen1) (hread2.trans hread1)
        sid 10 now
    obtain ⟨bC, hfireC⟩ : ∃ b, congestionFires R now = Except.ok b := by
      rcases maybeCong_cases db sid R now dbA c hc with ⟨hf, -⟩ | ⟨hf, -, -⟩
      · exact ⟨true, hf⟩
      · exact ⟨false, hf⟩
    obtain ⟨bS, hfireS⟩ : ∃ b, stoppedVehicleFires R = Except.ok b := by
      rcases maybeStopped_cases dbA sid R now db1 s hs with
        ⟨hf, -⟩ | ⟨hf, -, -⟩
      · exact ⟨true, hf⟩
      · exact ⟨false, hf⟩
    have hposC : bC = true → 0 < openCountL db1.incidents sid "CONGESTION" := by
      intro hb
      subst hb
      rcases maybeCong_cases db sid R now dbA c hc with ⟨-, hup⟩ | ⟨hf, -, -⟩
      · have hp := upsert_pos_self db sid "CONGESTION" IncidentSeverity.HIGH
          CONGESTION_RULE now
        rw [hup] at hp
        exact lt_of_lt_of_le hp (hmono2 sid "CONGESTION")
      · rw [hfireC] at hf
        exact absurd hf (by simp)
    have hposS : bS = true →
        0 < openCountL db1.incidents sid "STOPPED_VEHICLE" := by
      intro hb
      subst hb
      rcases maybeStopped_cases dbA sid R now db1 s hs with
        ⟨-, hup⟩ | ⟨hf, -, -⟩
      · have hp := upsert_pos_self dbA sid "STOPPED_VEHICLE"
          IncidentSeverity.MEDIUM STOPPED_VEHICLE_RULE now
        rw [hup] at hp
        exact hp
      · rw [hfireS] at hf
        exact absurd hf (by simp)
    obtain ⟨dbB, hc2, hcountB, -, -, -⟩ :=
      maybeCong_second db1 sid R now bC hfireC hposC
    have hposS2 : bS = true →
        0 < openCountL dbB.incidents sid "STOPPED_VEHICLE" := by
      intro hb
      rw [hcountB sid "STOPPED_VEHICLE"]
      exact hposS hb
    obtain ⟨dbC, hs2, hcountC, -, -, -⟩ :=
      maybeStopped_second dbB sid R now bS hfireS hposS2
    have hc2x : maybeCreateCongestionIncident db1 sid
        (collectRecentReadings db1 sid 10 now) now = Except.ok (dbB, none) := by
      rw [hcollect]
      exact hc2
    have hs2x : maybeCreateStoppedVehicleIncident dbB sid
        (collectRecentReadings db1 sid 10 now) now = Except.ok (dbC, none) := by
      rw [hcollect]
      exact hs2
    have hev2 := evaluate_eq_of db1 dbB dbC sid now none none hmem1 hc2x hs2x
    rw [hev2] at h2
    simp only [Except.ok.injEq, Prod.mk.injEq, Option.toList_none,
      List.append_nil] at h2
    obtain ⟨hdb, hl⟩ := h2
    subst hdb
    exact ⟨hl.symm, fun s2 t2 => (hcountC s2 t2).trans (hcountB s2 t2)⟩

theorem evaluate_idempotent_witness :
    evaluateIncidentsForSegment db4w 1 600 = Except.ok (db4w1, [inc4w]) ∧
    evaluateIncidentsForSegment db4w1 1 600 = Except.ok (db4w1, []) ∧
    (([] : List Incident) = [] ∧ ∀ s t,
      openCountL db4w1.incidents s t = openCountL db4w1.incidents s t) :=
  ⟨by decide, by decide,
    evaluate_idempotent db4w 1 600 db4w1 db4w1 [inc4w] [] (by decide)
      (by decide)⟩

/-- Claim C8: a segment id that resolves to no stored segment makes the
orchestrator return the empty list, without an error and without touching
the store. -/
theorem unknown_segment_empty_result (db : Store) (sid : Nat) (now : ℤ)
    (h : sid ∉ db.segments) :
    evaluateIncidentsForSegment db sid now = Except.ok (db, []) :=
  evaluate_eq_not_mem db sid now h

theorem unknown_segment_empty_result_witness :
    (7 : Nat) ∉ dbEmpty.segments ∧
    evaluateIncidentsForSegment dbEmpty 7 0 = Except.ok (dbEmpty, []) :=
  ⟨by decide, unknown_segment_empty_result dbEmpty 7 0 (by decide)⟩

/-- Claim C10: when an OPEN incident for `(segment, type)` already exists,
the upsert returns no new incident, creates no record, and changes only the
`updated_at` of one existing OPEN incident of that pair — every other row
and every other store table is untouched. -/
theorem upsert_existing_frame (db : Store) (sid : Nat) (ty : String)
    (sev : IncidentSeverity) (rule : String) (now : ℤ)
    (h : ∃ inc ∈ db.incidents, isOpenFor sid ty inc = true) :
    (upsertIncident db sid ty sev rule now).2 = none ∧
    (upsertIncident db sid ty sev rule now).1.segments = db.segments ∧
    (upsertIncident db sid ty sev rule now).1.sensors = db.sensors ∧
    (upsertIncident db sid ty sev rule now).1.readings = db.readings ∧
    (upsertIncident db sid ty sev rule now).1.incidents.length =
      db.incidents.length ∧
    ∃ j, ∃ hj : j < db.incidents.length,
      isOpenFor sid ty (db.incidents.get ⟨j, hj⟩) = true ∧
      (upsertIncident db sid ty sev rule now).1.incidents =
        db.incidents.set j
          { db.incidents.get ⟨j, hj⟩ with updated_at := now } := by
  have hpos : 0 < openCountL db.incidents sid ty :=
    (openCountL_pos_iff db.incidents sid ty).mpr h
  cases hm : mostRecentOpen? sid ty db.incidents with
  | none =>
    rw [mostRecentOpen?_none_iff_count] at hm
    omega
  | some p =>
    obtain ⟨j, ex⟩ := p
    obtain ⟨hj, hget, hopen⟩ := mostRecentOpen?_some sid ty db.incidents j ex hm
    have hframe := upsert_frame db sid ty sev rule now
    refine ⟨by simp [upsertIncident, hm], hframe.1, hframe.2.1, hframe.2.2,
      by simp [upsertIncident, hm], j, hj, hget ▸ hopen, ?_⟩
    simp only [upsertIncident, hm]
    rw [hget]

theorem upsert_existing_frame_witness :
    (∃ inc ∈ db10w.incidents, isOpenFor 2 "STOPPED_VEHICLE" inc = true) ∧
    (upsertIncident db10w 2 "STOPPED_VEHICLE" IncidentSeverity.MEDIUM
      STOPPED_VEHICLE_RULE 900).2 = none :=
  have h : ∃ inc ∈ db10w.incidents, isOpenFor 2 "STOPPED_VEHICLE" inc = true :=
    ⟨db10w.incidents.head (by decide), by decide⟩
  ⟨h, (upsert_existing_frame db10w 2 "STOPPED_VEHICLE"
    IncidentSeverity.MEDIUM STOPPED_VEHICLE_RULE 900 h).1⟩

/-- Claim C7: timestamps are normalized to UTC before window-membership
comparisons, a naive timestamp being read as UTC: `_timestamp_utc` maps a
naive wall clock and the same wall clock tagged UTC (and any aware timestamp
denoting the same instant) to the same value, so the baseline calculator
treats them identically, and the ingestion normalization stores a naive and
an explicit-UTC timestamp of the same instant identically, so the window
extractor's cutoff treats them identically. -/
theorem timestamp_normalization_utc (w o : ℤ) :
    timestampUtc { wall := w, off := none } =
      timestampUtc { wall := w, off := some 0 } ∧
    instant (timestampUtc { wall := w + o, off := some o }) =
      instant (timestampUtc { wall := w, off := none }) ∧
    ingestTimestamp { wall := w, off := none } =
      ingestTimestamp { wall := w, off := some 0 } ∧
    (∀ (key : String) (minutes excl now : ℤ) (sensor_id : Nat)
        (data : Payload) (rs : List SensorReading),
      windowAverage (⟨sensor_id, ⟨w, none⟩, data⟩ :: rs)
        key minutes excl now =
      windowAverage (⟨sensor_id, ⟨w, some 0⟩, data⟩ :: rs)
        key minutes excl now) ∧
    (∀ (db : Store) (sid : Nat) (m now : ℤ) (sensor_id : Nat)
        (data : Payload) (rs : List SensorReading),
      collectRecentReadings { db with readings :=
          ⟨sensor_id, ingestTimestamp ⟨w, none⟩, data⟩ :: rs } sid m now =
      collectRecentReadings { db with readings :=
          ⟨sensor_id, ingestTimestamp ⟨w, some 0⟩, data⟩ :: rs } sid m now) := by
  have h1 : timestampUtc { wall := w, off := none } =
      timestampUtc { wall := w, off := some 0 } := by
    simp [timestampUtc]
  refine ⟨h1, by simp [timestampUtc, instant], rfl, ?_, fun db sid m now i d rs => rfl⟩
  intro key minutes excl now sensor_id data rs
  simp only [windowAverage, windowValues, h1]

theorem isBlocked_ok_true_iff (r : SensorReading) :
    isBlocked r = Except.ok true ↔
      (pyGe1 (pyGetD r.data "stopped_count" (PyValue.num 0)) =
        Except.ok true ∧
       pyGet r.data "lane_blocked" = PyValue.bool true) := by
  unfold isBlocked
  cases hg : pyGe1 (pyGetD r.data "stopped_count" (PyValue.num 0)) with
  | error e => simp
  | ok b =>
    cases b
    · simp
    · simp [beq_iff_eq]

theorem allBlocked_ok_true_iff :
    ∀ l : List SensorReading, allBlocked l = Except.ok true ↔
      ∀ r ∈ l, isBlocked r = Except.ok true := by
  intro l
  induction l with
  | nil => simp [allBlocked]
  | cons r rs ih =>
    rw [allBlocked]
    cases hb : isBlocked r with
    | error e => simp [hb]
    | ok b =>
      cases b
      · simp [hb]
      · simp [hb, ih]

/-- Claim C3: the stopped-vehicle rule fires exactly when the stopped window
holds at least two samples and the two most recent both report
`stopped_count >= 1` and `lane_blocked == True` (no baseline involved); a
produced incident carries severity MEDIUM, type STOPPED_VEHICLE and rule
STOPPED_VEHICLE_DETECTED. -/
theorem stopped_vehicle_rule_characterization (readings : SegmentReadings)
    (now : ℤ) :
    (stoppedVehicleFires readings = Except.ok true ↔
      (2 ≤ readings.stopped.length ∧
       ∀ r ∈ readings.stopped.drop (readings.stopped.length - 2),
         pyGe1 (pyGetD r.data "stopped_count" (PyValue.num 0)) =
           Except.ok true ∧
         pyGet r.data "lane_blocked" = PyValue.bool true)) ∧
    (∀ db sid db2 inc,
      maybeCreateStoppedVehicleIncident db sid readings now =
        Except.ok (db2, some inc) →
      inc.severity = IncidentSeverity.MEDIUM ∧ inc.type = "STOPPED_VEHICLE" ∧
      inc.rule_triggered = "STOPPED_VEHICLE_DETECTED") := by
  constructor
  · unfold stoppedVehicleFires
    by_cases hlen : readings.stopped.length < 2
    · rw [if_pos hlen]
      constructor
      · intro h
        exact absurd h (by simp)
      · rintro ⟨h2, -⟩
        omega
    · rw [if_neg hlen]
      rw [allBlocked_ok_true_iff]
      constructor
      · intro h
        exact ⟨by omega, fun r hr => (isBlocked_ok_true_iff r).mp (h r hr)⟩
      · rintro ⟨-, h⟩ r hr
        exact (isBlocked_ok_true_iff r).mpr (h r hr)
  · intro db sid db2 inc h
    rcases maybeStopped_cases db sid readings now db2 (some inc) h with
      ⟨-, hup⟩ | ⟨-, -, ho⟩
    · have h2 : (upsertIncident db sid "STOPPED_VEHICLE"
          IncidentSeverity.MEDIUM STOPPED_VEHICLE_RULE now).2 = some inc := by
        rw [hup]
      obtain ⟨hsev, hty, hrule, -, -⟩ := upsert_some_fields db sid
        "STOPPED_VEHICLE" IncidentSeverity.MEDIUM STOPPED_VEHICLE_RULE now
        inc h2
      exact ⟨hsev, hty, hrule⟩
    · exact absurd ho (by simp)

theorem stopped_vehicle_rule_witness :
    stoppedVehicleFires (SegmentReadings.mk [] [] db4w.readings) =
      Except.ok true :=
  (stopped_vehicle_rule_characterization
    (SegmentReadings.mk [] [] db4w.readings) 600).1.mpr
    ⟨by decide, by decide⟩

theorem windowAverage_eq_of (readings : List SensorReading) (key : String)
    (minutes excl now : ℤ) (vals : List ℚ)
    (h : windowValues key (now - minutes * 60) (now - excl) readings =
      Except.ok vals) :
    windowAverage readings key minutes excl now =
      Except.ok (if vals.isEmpty then none else some (mean vals)) := by
  simp only [windowAverage]
  rw [h]

theorem congestionFires_short (readings : SegmentReadings) (now : ℤ)
    (h : (extractNumericSeries readings.flow "vehicles_per_minute").length < 2
      ∨ (extractNumericSeries readings.speed "avg_speed_kmh").length < 2) :
    congestionFires readings now = Except.ok false := by
  simp only [congestionFires]
  rw [if_pos h]

theorem congestionFires_flow_err (readings : SegmentReadings) (now : ℤ)
    (e : String)
    (hlen : ¬((extractNumericSeries readings.flow
        "vehicles_per_minute").length < 2
      ∨ (extractNumericSeries readings.speed "avg_speed_kmh").length < 2))
    (hwf : windowAverage readings.flow "vehicles_per_minute" 5 30 now =
      Except.error e) :
    congestionFires readings now = Except.error e := by
  simp only [congestionFires]
  rw [if_neg hlen, hwf]

theorem congestionFires_speed_err (readings : SegmentReadings) (now : ℤ)
    (bfo : Option ℚ) (e : String)
    (hlen : ¬((extractNumericSeries readings.flow
        "vehicles_per_minute").length < 2
      ∨ (extractNumericSeries readings.speed "avg_speed_kmh").length < 2))
    (hwf : windowAverage readings.flow "vehicles_per_minute" 5 30 now =
      Except.ok bfo)
    (hws : windowAverage readings.speed "avg_speed_kmh" 5 30 now =
      Except.error e) :
    congestionFires readings now = Except.error e := by
  simp only [congestionFires]
  rw [if_neg hlen, hwf, hws]

theorem congestionFires_flow_none (readings : SegmentReadings) (now : ℤ)
    (bso : Option ℚ)
    (hlen : ¬((extractNumericSeries readings.flow
        "vehicles_per_minute").length < 2
      ∨ (extractNumericSeries readings.speed "avg_speed_kmh").length < 2))
    (hwf : windowAverage readings.flow "vehicles_per_minute" 5 30 now =
      Except.ok none)
    (hws : windowAverage readings.speed "avg_speed_kmh" 5 30 now =
      Except.ok bso) :
    congestionFires readings now = Except.ok false := by
  simp only [congestionFires]
  rw [if_neg hlen, hwf, hws]

theorem congestionFires_speed_none (readings : SegmentReadings) (now : ℤ)
    (bf : ℚ)
    (hlen : ¬((extractNumericSeries readings.flow
        "vehicles_per_minute").length < 2
      ∨ (extractNumericSeries readings.speed "avg_speed_kmh").length < 2))
    (hwf : windowAverage readings.flow "vehicles_per_minute" 5 30 now =
      Except.ok (some bf))
    (hws : windowAverage readings.speed "avg_speed_kmh" 5 30 now =
      Except.ok none) :
    congestionFires readings now = Except.ok false := by
  simp only [congestionFires]
  rw [if_neg hlen, hwf, hws]

theorem congestionFires_eq (readings : SegmentReadings) (now : ℤ)
    (bf bs : ℚ)
    (hlen : ¬((extractNumericSeries readings.flow
        "vehicles_per_minute").length < 2
      ∨ (extractNumericSeries readings.speed "avg_speed_kmh").length < 2))
    (hwf : windowAverage readings.flow "vehicles_per_minute" 5 30 now =
      Except.ok (some bf))
    (hws : windowAverage readings.speed "avg_speed_kmh" 5 30 now =
      Except.ok (some bs)) :
    congestionFires readings now =
      (if bf < 30 ∨ bs < 60 then Except.ok false
       else Except.ok
        ((((extractNumericSeries readings.flow "vehicles_per_minute").drop
            ((extractNumericSeries readings.flow
              "vehicles_per_minute").length - 2)).all
          fun v => decide (v ≤ bf * (2 / 5))) &&
         (((extractNumericSeries readings.speed "avg_speed_kmh").drop
            ((extractNumericSeries readings.speed
              "avg_speed_kmh").length - 2)).all
          fun v => decide (v ≤ (25 : ℚ))))) := by
  simp only [congestionFires]
  rw [if_neg hlen, hwf, hws]

/-- Claim C2: the congestion rule fires exactly when both numeric series
hold at least two samples, both baselines exist, the baselines clear the
30 / 60 floors, and the two most recent flow samples sit at or below
0.4 x baseline flow while the two most recent speed samples sit at or below
25; a produced incident carries severity HIGH, type CONGESTION and rule
FLOW_DROP_AND_SPEED_DROP. -/
theorem congestion_rule_characterization (readings : SegmentReadings)
    (now : ℤ) :
    (congestionFires readings now = Except.ok true ↔
      (2 ≤ (extractNumericSeries readings.flow "vehicles_per_minute").length ∧
       2 ≤ (extractNumericSeries readings.speed "avg_speed_kmh").length ∧
       ∃ bf bs : ℚ,
         windowAverage readings.flow "vehicles_per_minute" 5 30 now =
           Except.ok (some bf) ∧
         windowAverage readings.speed "avg_speed_kmh" 5 30 now =
           Except.ok (some bs) ∧
         30 ≤ bf ∧ 60 ≤ bs ∧
         (∀ v ∈ (extractNumericSeries readings.flow
              "vehicles_per_minute").drop
            ((extractNumericSeries readings.flow
              "vehicles_per_minute").length - 2),
            v ≤ bf * (2 / 5)) ∧
         (∀ v ∈ (extractNumericSeries readings.speed "avg_speed_kmh").drop
            ((extractNumericSeries readings.speed "avg_speed_kmh").length - 2),
            v ≤ (25 : ℚ)))) ∧
    (∀ db sid db2 inc,
      maybeCreateCongestionIncident db sid readings now =
        Except.ok (db2, some inc) →
      inc.severity = IncidentSeverity.HIGH ∧ inc.type = "CONGESTION" ∧
      inc.rule_triggered = "FLOW_DROP_AND_SPEED_DROP") := by
  constructor
  · by_cases hlen :
        (extractNumericSeries readings.flow "vehicles_per_minute").length < 2
        ∨ (extractNumericSeries readings.speed "avg_speed_kmh").length < 2
    · rw [congestionFires_short readings now hlen]
      constructor
      · intro h
        exact absurd h (by simp)
      · rintro ⟨h1, h2, -⟩
        omega
    · constructor
      · intro h
        cases hwf : windowAverage readings.flow "vehicles_per_minute" 5 30
            now with
        | error e =>
          rw [congestionFires_flow_err readings now e hlen hwf] at h
          exact absurd h (by simp)
        | ok bfo =>
          cases hws : windowAverage readings.speed "avg_speed_kmh" 5 30
              now with
          | error e =>
            rw [congestionFires_speed_err readings now bfo e hlen hwf hws]
              at h
            exact absurd h (by simp)
          | ok bso =>
            cases bfo with
            | none =>
              rw [congestionFires_flow_none readings now bso hlen hwf hws]
                at h
              exact absurd h (by simp)
            | some bf =>
              cases bso with
              | none =>
                rw [congestionFires_speed_none readings now bf hlen hwf hws]
                  at h
                exact absurd h (by simp)
              | some bs =>
                rw [congestionFires_eq readings now bf bs hlen hwf hws] at h
                by_cases hfloor : bf < 30 ∨ bs < 60
                · rw [if_pos hfloor] at h
                  exact absurd h (by simp)
                · rw [if_neg hfloor] at h
                  push_neg at hfloor
                  obtain ⟨h30, h60⟩ := hfloor
                  have hb := Except.ok.inj h
                  rw [Bool.and_eq_true] at hb
                  obtain ⟨hb1, hb2⟩ := hb
                  push_neg at hlen
                  refine ⟨hlen.1, hlen.2, bf, bs, rfl, rfl, h30, h60,
                    ?_, ?_⟩
                  · intro v hv
                    exact of_decide_eq_true (List.all_eq_true.mp hb1 v hv)
                  · intro v hv
                    exact of_decide_eq_true (List.all_eq_true.mp hb2 v hv)
      · rintro ⟨-, -, bf, bs, hwf, hws, h30, h60, hall1, hall2⟩
        rw [congestionFires_eq readings now bf bs hlen hwf hws]
        rw [if_neg (by rintro (hf | hf) <;> linarith)]
        have hb1 : (((extractNumericSeries readings.flow
              "vehicles_per_minute").drop
            ((extractNumericSeries readings.flow
              "vehicles_per_minute").length - 2)).all
            fun v => decide (v ≤ bf * (2 / 5))) = true :=
          List.all_eq_true.mpr fun v hv => decide_eq_true (hall1 v hv)
        have hb2 : (((extractNumericSeries readings.speed
              "avg_speed_kmh").drop
            ((extractNumericSeries readings.speed
              "avg_speed_kmh").length - 2)).all
            fun v => decide (v ≤ (25 : ℚ))) = true :=
          List.all_eq_true.mpr fun v hv => decide_eq_true (hall2 v hv)
        rw [hb1, hb2]
        rfl
  · intro db sid db2 inc h
    rcases maybeCong_cases db sid readings now db2 (some inc) h with
      ⟨-, hup⟩ | ⟨-, -, ho⟩
    · have h2 : (upsertIncident db sid "CONGESTION" IncidentSeverity.HIGH
          CONGESTION_RULE now).2 = some inc := by
        rw [hup]
      obtain ⟨hsev, hty, hrule, -, -⟩ := upsert_some_fields db sid
        "CONGESTION" IncidentSeverity.HIGH CONGESTION_RULE now inc h2
      exact ⟨hsev, hty, hrule⟩
    · exact absurd ho (by simp)

theorem congestion_rule_witness :
    congestionFires bundleC2 600 = Except.ok true :=
  (congestion_rule_characterization bundleC2 600).1.mpr
    ⟨by decide, by decide, 241 / 4, 291 / 4,
      (windowAverage_eq_of bundleC2.flow "vehicles_per_minute" 5 30 600
        [60, 62, 58, 61] (by decide)).trans (by norm_num [mean]),
      (windowAverage_eq_of bundleC2.speed "avg_speed_kmh" 5 30 600
        [75, 70, 72, 74] (by decide)).trans (by norm_num [mean]),
      by norm_num, by norm_num,
      by
        intro v hv
        have hs : extractNumericSeries bundleC2.flow "vehicles_per_minute" =
            [60, 62, 58, 61, 15, 15] := by decide
        rw [hs] at hv
        obtain rfl : v = 15 := by simpa using hv
        norm_num,
      by
        intro v hv
        have hs : extractNumericSeries bundleC2.speed "avg_speed_kmh" =
            [75, 70, 72, 74, 20, 20] := by decide
        rw [hs] at hv
        obtain rfl : v = 20 := by simpa using hv
        norm_num⟩

/-- Claim C9: on any enrichment failure (absent or empty API key, raised
network error, unparseable reply body) the engine answers with the
deterministic local fallback — a function of at most the incident's type —
without escalating (the embedded `analyze_incident_with_llm` is total), and
enrichment writes only the three narrative columns, leaving status, rule,
type and severity intact. -/
theorem enrichment_fallback (s : Settings) (outcome : LLMCallOutcome)
    (hfail : s.openai_api_key = none ∨ s.openai_api_key = some "" ∨
      ∀ a b c, outcome ≠ LLMCallOutcome.success a b c) :
    (∀ inc1 inc2 : Incident, inc1.type = inc2.type →
      analyze_incident_with_llm s inc1 outcome =
        analyze_incident_with_llm s inc2 outcome) ∧
    (∀ (segment_found : Bool) (inc : Incident),
      (populate_ai_fields segment_found s outcome inc).status = inc.status ∧
      (populate_ai_fields segment_found s outcome inc).rule_triggered =
        inc.rule_triggered ∧
      (populate_ai_fields segment_found s outcome inc).type = inc.type ∧
      (populate_ai_fields segment_found s outcome inc).severity =
        inc.severity) := by
  constructor
  · intro inc1 inc2 hty
    unfold analyze_incident_with_llm
    by_cases hkey : s.openai_api_key = none ∨ s.openai_api_key = some ""
    · rw [if_pos hkey, if_pos hkey]
      simp [dummy_response, hty]
    · rw [if_neg hkey, if_neg hkey]
      rcases hfail with h | h | hsucc
      · exact absurd (Or.inl h) hkey
      · exact absurd (Or.inr h) hkey
      · by_cases hprov : s.llm_provider.toLower = "openai"
        · rw [if_pos hprov, if_pos hprov]
          cases outcome with
          | success a b c => exact absurd rfl (hsucc a b c)
          | unparseable c => simp [call_openai]
          | httpFailure m => simp [call_openai, dummy_response, hty]
        · rw [if_neg hprov, if_neg hprov]
          simp [dummy_response, hty]
  · intro segment_found inc
    cases segment_found <;> simp [populate_ai_fields]

theorem enrichment_fallback_witness :
    (settingsC9.openai_api_key = none ∨ settingsC9.openai_api_key = some ""
      ∨ ∀ a b c, LLMCallOutcome.httpFailure "boom" ≠
        LLMCallOutcome.success a b c) ∧
    analyze_incident_with_llm settingsC9 incC9a
        (LLMCallOutcome.httpFailure "boom") =
      analyze_incident_with_llm settingsC9 incC9b
        (LLMCallOutcome.httpFailure "boom") ∧
    (populate_ai_fields true settingsC9 (LLMCallOutcome.httpFailure "boom")
      incC9a).status = incC9a.status :=
  have hfail : settingsC9.openai_api_key = none ∨
      settingsC9.openai_api_key = some "" ∨
      ∀ a b c, LLMCallOutcome.httpFailure "boom" ≠
        LLMCallOutcome.success a b c := Or.inl rfl
  ⟨hfail,
    (enrichment_fallback settingsC9 (LLMCallOutcome.httpFailure "boom")
      hfail).1 incC9a incC9b rfl,
    ((enrichment_fallback settingsC9 (LLMCallOutcome.httpFailure "boom")
      hfail).2 true incC9a).1⟩

/-- Claim C5 (code bug): the baseline calculator is claimed to return the
arithmetic mean of the numeric values in `[now - 5min, now - 30s]` or
absence — but on a window holding the numeric 50 and the string "oops" the
embedded `_window_average` raises ValueError instead of returning 50; the
remaining conjuncts document that the windowing itself is as claimed:
an in-window singleton averages to itself, a too-old or too-recent reading
never contributes, and an empty window yields absence, not zero. -/
theorem window_average_raises_on_malformed_value :
    windowAverage speedC5 "avg_speed_kmh" 5 30 600 =
      Except.error "ValueError" ∧
    extractNumericSeries speedC5 "avg_speed_kmh" = [50] ∧
    windowAverage [⟨2, ⟨480, some 0⟩, [("avg_speed_kmh", PyValue.num 50)]⟩]
      "avg_speed_kmh" 5 30 600 = Except.ok (some 50) ∧
    windowAverage
      [⟨2, ⟨0, some 0⟩, [("avg_speed_kmh", PyValue.num 99)]⟩,
       ⟨2, ⟨480, some 0⟩, [("avg_speed_kmh", PyValue.num 50)]⟩,
       ⟨2, ⟨590, some 0⟩, [("avg_speed_kmh", PyValue.num 99)]⟩]
      "avg_speed_kmh" 5 30 600 = Except.ok (some 50) ∧
    windowAverage ([] : List SensorReading) "avg_speed_kmh" 5 30 600 =
      Except.ok none := by
  refine ⟨by decide, by decide, ?_, ?_, by decide⟩
  · exact (windowAverage_eq_of _ "avg_speed_kmh" 5 30 600 [50]
      (by decide)).trans (by norm_num [mean])
  · exact (windowAverage_eq_of _ "avg_speed_kmh" 5 30 600 [50]
      (by decide)).trans (by norm_num [mean])

/-- Claim C6 (code bug): rule evaluation is claimed total over malformed
payloads — `_extract_numeric_series` indeed skips the malformed "stalled"
(first conjunct), but the bare `float(...)` in `_window_average` raises
ValueError on it (second conjunct), and that exception aborts the whole
evaluation of the segment even though the independent stopped-vehicle rule
would have fired (last two conjuncts). -/
theorem rule_evaluation_not_total :
    extractNumericSeries flowC6 "vehicles_per_minute" = [50, 45] ∧
    windowAverage flowC6 "vehicles_per_minute" 5 30 600 =
      Except.error "ValueError" ∧
    stoppedVehicleFires (collectRecentReadings dbC6 1 10 600) =
      Except.ok true ∧
    evaluateIncidentsForSegment dbC6 1 600 = Except.error "ValueError" := by
  refine ⟨by decide, by decide, by decide, by decide⟩

end RTIIS
